import Mathlib

set_option autoImplicit false

/-!
Verification development for the CS2-Player-States scraper.

The extraction engine is the `page.evaluate` callback in
`src/services/scraper.service.js` (lines 76-196).  It is a pure function of
the rendered document snapshot, so we embed the snapshot as a materialized
element tree (`Document`) exposing exactly the primitives the callback uses:
per-element `textContent`, tag, class list, parent link and ordered child
links, plus the page location.  The JavaScript string operations used by the
callback (`trim`, `toLowerCase`, `toUpperCase`, `includes`, `split`, the
regular expressions, `parseInt`, `parseFloat`) are modelled character-wise.

JavaScript numbers produced by `parseFloat` on strings matching `\d+.\d+`
are represented exactly by `DecimalVal` (integer part plus canonical
fraction digits); no claim performs arithmetic on them, only assignment and
comparison, so this representation is faithful for every property proved
here.
-/

/-! ## JavaScript string primitives -/

def isWsChar (c : Char) : Bool :=
  c = ' ' || c = '\t' || c = '\n' || c = '\r'

/-- JS `String.prototype.trim`. -/
def jsTrim (s : String) : String :=
  String.mk (((s.data.dropWhile isWsChar).reverse.dropWhile isWsChar).reverse)

def lowerChar (c : Char) : Char :=
  if 65 ≤ c.toNat && c.toNat ≤ 90 then Char.ofNat (c.toNat + 32) else c

def upperChar (c : Char) : Char :=
  if 97 ≤ c.toNat && c.toNat ≤ 122 then Char.ofNat (c.toNat - 32) else c

/-- JS `String.prototype.toLowerCase` (ASCII, which is all the code compares). -/
def jsLower (s : String) : String :=
  String.mk (s.data.map lowerChar)

/-- JS `String.prototype.toUpperCase` (ASCII). -/
def jsUpper (s : String) : String :=
  String.mk (s.data.map upperChar)

/-- Substring test on character lists, so that `jsIncludes` models
JS `String.prototype.includes`. -/
def hasSub (sub : List Char) : List Char → Bool
  | [] => sub.isEmpty
  | c :: t => sub.isPrefixOf (c :: t) || hasSub sub t

/-- JS `a.includes(b)`. -/
def jsIncludes (s sub : String) : Bool :=
  hasSub sub.data s.data

def isDigitChar (c : Char) : Bool :=
  48 ≤ c.toNat && c.toNat ≤ 57

def isDigitsList (l : List Char) : Bool :=
  !l.isEmpty && l.all isDigitChar

/-- The regular expression `^\d+$`. -/
def matchIntRe (s : String) : Bool :=
  isDigitsList s.data

/-- The regular expression `^\d+%$`. -/
def matchPctRe (s : String) : Bool :=
  match s.data.reverse with
  | [] => false
  | c :: rest => c = '%' && isDigitsList rest.reverse

def splitOnCharAux (sep : Char) : List Char → List Char → List (List Char)
  | [], acc => [acc.reverse]
  | c :: t, acc =>
    if c = sep then acc.reverse :: splitOnCharAux sep t []
    else splitOnCharAux sep t (c :: acc)

/-- JS `String.prototype.split` with a single-character separator. -/
def splitOnChar (sep : Char) (l : List Char) : List (List Char) :=
  splitOnCharAux sep l []

/-- The regular expression `^\d+\.\d+$`. -/
def matchDecRe (s : String) : Bool :=
  match splitOnChar '.' s.data with
  | [a, b] => isDigitsList a && isDigitsList b
  | _ => false

/-- The regular expression `^\d{2,3}$`. -/
def matchAdrRe (s : String) : Bool :=
  isDigitsList s.data && (s.data.length = 2 || s.data.length = 3)

/-- JS `parseInt` on a string of decimal digits. -/
def parseDigits (l : List Char) : Nat :=
  l.foldl (fun n c => n * 10 + (c.toNat - 48)) 0

/-- Exact value of a JS number produced by `parseFloat` on a `\d+.\d+`
string: integer part plus fraction digits with trailing zeros stripped, so
that structural equality coincides with numeric equality. -/
structure DecimalVal where
  ip : Nat
  fr : List Char
deriving Repr, DecidableEq

def stripTrailingZeroChars (l : List Char) : List Char :=
  (l.reverse.dropWhile (fun c => c = '0')).reverse

/-- JS `parseFloat` on a string matching `^\d+\.\d+$`. -/
def parseFloatDec (s : String) : DecimalVal :=
  match splitOnChar '.' s.data with
  | [a, b] => ⟨parseDigits a, stripTrailingZeroChars b⟩
  | _ => ⟨0, []⟩

/-! ## The document snapshot

A materialized DOM snapshot: elements in document order, each carrying the
`textContent` the live DOM would report, its tag, classes, parent index and
the indices of its element children in order. -/

structure DomElem where
  tag : String := "div"
  classes : List String := []
  textContent : String := ""
  parent : Option Nat := none
  children : List Nat := []
deriving Repr, DecidableEq

structure Document where
  elems : List DomElem := []
  locationPathname : String := ""
  locationHref : String := ""
deriving Repr, DecidableEq

def elemAt (d : Document) (i : Nat) : Option DomElem :=
  d.elems[i]?

/-- Raw `textContent` of the element at index `i`. -/
def rawTextAt (d : Document) (i : Nat) : String :=
  match elemAt d i with
  | some e => e.textContent
  | none => ""

/-- The callback helper `getText = (element) => element?.textContent?.trim() || ''`. -/
def getTextAt (d : Document) (oi : Option Nat) : String :=
  match oi with
  | some i =>
    match elemAt d i with
    | some e => jsTrim e.textContent
    | none => ""
  | none => ""

def tagAt (d : Document) (i : Nat) : String :=
  match elemAt d i with
  | some e => e.tag
  | none => ""

/-- `el.parentElement`. -/
def parentOf (d : Document) (i : Nat) : Option Nat :=
  (elemAt d i).bind (fun e => e.parent)

/-- All element indices in document order: `document.querySelectorAll('*')`. -/
def allIdx (d : Document) : List Nat :=
  List.range d.elems.length

def closestTagAux (d : Document) (t : String) : Nat → Nat → Option Nat
  | 0, _ => none
  | fuel + 1, i =>
    match elemAt d i with
    | none => none
    | some e =>
      if e.tag = t then some i
      else
        match e.parent with
        | some p => closestTagAux d t fuel p
        | none => none

/-- `el.closest(tag)`: the element itself or its nearest ancestor with the tag. -/
def closestTag (d : Document) (t : String) (i : Nat) : Option Nat :=
  closestTagAux d t (d.elems.length + 1) i

/-- `parent.querySelector('*')`: the first descendant element in document
order, which in a tree is the first element child. -/
def firstChildOf (d : Document) (i : Nat) : Option Nat :=
  (elemAt d i).bind (fun e => e.children.head?)

/-- `document.querySelector('h1, .player-name, .username')`. -/
def querySel3 (d : Document) : Option Nat :=
  (allIdx d).find? (fun i =>
    match elemAt d i with
    | some e => e.tag = "h1" || e.classes.contains "player-name" || e.classes.contains "username"
    | none => false)

/-- `document.querySelector('title')`. -/
def titleIdx (d : Document) : Option Nat :=
  (allIdx d).find? (fun i => tagAt d i = "title")

/-! ## The extracted stats object -/

structure ExtractedStats where
  kd_ratio : Option DecimalVal := none
  hltv_rating : Option DecimalVal := none
  win_rate : Option String := none
  headshot_percentage : Option String := none
  clutch_success : Option String := none
  entry_success : Option String := none
  kills : Option Nat := none
  deaths : Option Nat := none
  assists : Option Nat := none
  headshots : Option Nat := none
  matches_played : Option Nat := none
  matches_won : Option Nat := none
  matches_lost : Option Nat := none
  matches_tied : Option Nat := none
  rounds_played : Option Nat := none
  total_damage : Option Nat := none
  adr : Option Nat := none
deriving Repr, DecidableEq

/-- `Object.keys(extractedStats).length`: a key is present exactly when the
corresponding pass assigned it. -/
def countFields (st : ExtractedStats) : Nat :=
  [st.kd_ratio.isSome, st.hltv_rating.isSome, st.win_rate.isSome,
   st.headshot_percentage.isSome, st.clutch_success.isSome,
   st.entry_success.isSome, st.kills.isSome, st.deaths.isSome,
   st.assists.isSome, st.headshots.isSome, st.matches_played.isSome,
   st.matches_won.isSome, st.matches_lost.isSome, st.matches_tied.isSome,
   st.rounds_played.isSome, st.total_damage.isSome, st.adr.isSome].count true

/-! ## Extraction passes (scraper.service.js lines 86-186) -/

/-- One iteration of the K/D and HLTV-rating pass
(`kdElements.forEach`, lines 87-98). -/
def decimalStep (d : Document) (st : ExtractedStats) (i : Nat) : ExtractedStats :=
  let text := getTextAt d (some i)
  if matchDecRe text then
    match (closestTag d "svg" i).bind (parentOf d) with
    | some p =>
      match (firstChildOf d p).map (fun c => jsLower (rawTextAt d c)) with
      | some lb =>
        if jsIncludes lb "k/d" || jsIncludes lb "kd" then
          { st with kd_ratio := some (parseFloatDec text) }
        else if jsIncludes lb "hltv" || jsIncludes lb "rating" then
          { st with hltv_rating := some (parseFloatDec text) }
        else st
      | none => st
    | none => st
  else st

/-- `document.querySelectorAll('text')`: indices of the elements with tag
`text`, in document order. -/
def textElemsIdx (d : Document) : List Nat :=
  (allIdx d).filter (fun i => tagAt d i = "text")

/-- The K/D pass: `document.querySelectorAll('text')` in document order. -/
def decimalPass (d : Document) (st : ExtractedStats) : ExtractedStats :=
  (textElemsIdx d).foldl (decimalStep d) st

/-- One iteration of the percentage pass
(`percentageElements.forEach`, lines 102-116). -/
def percentStep (d : Document) (st : ExtractedStats) (i : Nat) : ExtractedStats :=
  let text := getTextAt d (some i)
  if matchPctRe text then
    let context :=
      jsLower (match parentOf d i with
               | some p => rawTextAt d p
               | none => "")
    if jsIncludes context "win" then { st with win_rate := some text }
    else if jsIncludes context "hs" || jsIncludes context "headshot" then
      { st with headshot_percentage := some text }
    else if jsIncludes context "clutch" then { st with clutch_success := some text }
    else if jsIncludes context "entry" then { st with entry_success := some text }
    else st
  else st

def percentPass (d : Document) (st : ExtractedStats) : ExtractedStats :=
  (allIdx d).foldl (percentStep d) st

/-- The mutually exclusive keyword routing of the integer pass (the
`if`/`else if` chain of lines 128-146), for a node whose context string is
`context` and whose parsed value is `num`. -/
def integerKeywordRoute (st : ExtractedStats) (context : String) (num : Nat) :
    ExtractedStats :=
  if jsIncludes context "kill" && !jsIncludes context "death" then
    { st with kills := some num }
  else if jsIncludes context "death" && !jsIncludes context "kill" then
    { st with deaths := some num }
  else if jsIncludes context "assist" then { st with assists := some num }
  else if jsIncludes context "headshot" && num < 50000 then
    { st with headshots := some num }
  else if jsIncludes context "played" || jsIncludes context "match" then
    { st with matches_played := some num }
  else if jsIncludes context "won" && num < 10000 then
    { st with matches_won := some num }
  else if jsIncludes context "lost" && num < 10000 then
    { st with matches_lost := some num }
  else if jsIncludes context "round" && 1000 < num then
    { st with rounds_played := some num }
  else if jsIncludes context "damage" && 100000 < num then
    { st with total_damage := some num }
  else st

/-- One iteration of the integer pass (`allElements.forEach`, lines
120-154): the bare-integer statement guarded by `num > 0`, followed by the
ADR statement, both in the same loop body. -/
def integerStep (d : Document) (st : ExtractedStats) (i : Nat) : ExtractedStats :=
  let text := getTextAt d (some i)
  let parentText := getTextAt d (parentOf d i)
  let context := jsLower (text ++ " " ++ parentText)
  let st1 :=
    if matchIntRe text then
      let num := parseDigits text.data
      if 0 < num then integerKeywordRoute st context num else st
    else st
  if matchAdrRe text && jsIncludes context "adr" then
    { st1 with adr := some (parseDigits text.data) }
  else st1

def integerPass (d : Document) (st : ExtractedStats) : ExtractedStats :=
  (allIdx d).foldl (integerStep d) st

/-- The ten upper-case labels of the adjacency fallback and the fields they
map to (lines 157-168). -/
inductive LabelField where
  | matches_played | kills | total_damage | matches_won | deaths
  | rounds_played | matches_lost | assists | matches_tied | headshots
deriving Repr, DecidableEq

def statLabels : List (String × LabelField) :=
  [("PLAYED", .matches_played), ("KILLS", .kills), ("DAMAGE", .total_damage),
   ("WON", .matches_won), ("DEATHS", .deaths), ("ROUNDS", .rounds_played),
   ("LOST", .matches_lost), ("ASSISTS", .assists), ("TIED", .matches_tied),
   ("HEADSHOTS", .headshots)]

def setLabelField (st : ExtractedStats) : LabelField → Nat → ExtractedStats
  | .matches_played, v => { st with matches_played := some v }
  | .kills, v => { st with kills := some v }
  | .total_damage, v => { st with total_damage := some v }
  | .matches_won, v => { st with matches_won := some v }
  | .deaths, v => { st with deaths := some v }
  | .rounds_played, v => { st with rounds_played := some v }
  | .matches_lost, v => { st with matches_lost := some v }
  | .assists, v => { st with assists := some v }
  | .matches_tied, v => { st with matches_tied := some v }
  | .headshots, v => { st with headshots := some v }

def getLabelField (st : ExtractedStats) : LabelField → Option Nat
  | .matches_played => st.matches_played
  | .kills => st.kills
  | .total_damage => st.total_damage
  | .matches_won => st.matches_won
  | .deaths => st.deaths
  | .rounds_played => st.rounds_played
  | .matches_lost => st.matches_lost
  | .assists => st.assists
  | .matches_tied => st.matches_tied
  | .headshots => st.headshots

/-- The sibling-window scan of the fallback (lines 175-184): siblings of the
label element, positions `max(0, index-2)` to `min(length, index+3)`
exclusive, first sibling whose trimmed text is a bare integer different from
the label. -/
def siblingWindowValue (d : Document) (li : Nat) (label : String) : Option Nat :=
  let siblings : List Nat :=
    match parentOf d li with
    | some p =>
      match elemAt d p with
      | some e => e.children
      | none => []
    | none => []
  let index : Int :=
    match siblings.indexOf? li with
    | some k => (k : Int)
    | none => -1
  let lo : Nat := (max 0 (index - 2)).toNat
  let hi : Int := min (siblings.length : Int) (index + 3)
  ((List.range siblings.length).filter (fun i => lo ≤ i && (i : Int) < hi)).findSome?
    (fun i =>
      match siblings[i]? with
      | some si =>
        let t := getTextAt d (some si)
        if matchIntRe t && t ≠ label then some (parseDigits t.data) else none
      | none => none)

/-- One label of the fallback loop (lines 170-186).  Note the assignment
`extractedStats[statLabels[label]] = value` is unconditional: it overwrites
any value a previous pass stored for the field. -/
def fallbackStep (d : Document) (st : ExtractedStats) (p : String × LabelField) :
    ExtractedStats :=
  match (allIdx d).find? (fun i => jsUpper (getTextAt d (some i)) = p.1) with
  | some li =>
    match siblingWindowValue d li p.1 with
    | some v => setLabelField st p.2 v
    | none => st
  | none => st

def fallbackPass (d : Document) (st : ExtractedStats) : ExtractedStats :=
  statLabels.foldl (fallbackStep d) st

/-! ## Name resolution and the full extraction callback -/

/-- JS `a || b` on possibly-undefined strings: an absent value and the empty
string are falsy. -/
def jsOrS (a b : Option String) : Option String :=
  match a with
  | some s => if s = "" then b else some s
  | none => b

/-- Lines 80-81: heading text, else page title up to the first dash, both
trimmed. -/
def playerNameOf (d : Document) : String :=
  let first : Option String := (querySel3 d).map (fun i => jsTrim (rawTextAt d i))
  let second : Option String :=
    (titleIdx d).map (fun i =>
      jsTrim (String.mk ((rawTextAt d i).data.takeWhile (fun c => !(c = '-')))))
  match jsOrS first second with
  | some s => if s = "" then "Unknown" else s
  | none => "Unknown"

structure PlayerInfo where
  steam_id64 : String
  player_name : String
  profile_url : String
deriving Repr, DecidableEq

structure ExtractResult where
  player_info : PlayerInfo
  stats : ExtractedStats
deriving Repr, DecidableEq

/-- The whole `page.evaluate` callback (lines 76-196): a pure function of
the document snapshot. -/
def extract (d : Document) : ExtractResult :=
  { player_info :=
      { steam_id64 := String.mk ((splitOnChar '/' d.locationPathname.data).getLastD [])
        player_name := playerNameOf d
        profile_url := d.locationHref }
    stats := fallbackPass d (integerPass d (percentPass d (decimalPass d {}))) }

/-! ## Scrape result (ScraperService.scrapePlayerStats, lines 28-231)

Navigation and rendering are external; a `FetchOutcome` is either the
document snapshot the rendering client produced or the error message of a
failed navigation / wait (HTTP error, missing stats elements).  The
JavaScript method catches every thrown error and converts it into a
`success: false` result, so the embedding is total. -/

inductive FetchOutcome where
  | ok (d : Document)
  | fail (msg : String)
deriving Repr

def noDataMsg : String :=
  "No stats data found - player might have no recorded matches"

structure ScrapeResult where
  success : Bool
  data : Option ExtractResult := none
  error : Option String := none
  statsCount : Nat := 0
deriving Repr, DecidableEq

def scrapePlayerStats : FetchOutcome → ScrapeResult
  | .fail m => { success := false, error := some m }
  | .ok d =>
    let r := extract d
    if countFields r.stats = 0 then
      { success := false, error := some noDataMsg }
    else
      { success := true, data := some r, statsCount := countFields r.stats }

/-! ## Database service (DatabaseService, scraper.service.js lines 248-514) -/

/-- A row of the `steam_ids` table. -/
structure SteamIdRow where
  steam_id64 : String
  id : Nat
  priority : Int
  created_at : Nat
  status : String
deriving Repr, DecidableEq

/-- The ORDER BY key of `getPendingSteamIds`:
`priority DESC, created_at ASC`. -/
def pendingBefore (a b : SteamIdRow) : Prop :=
  b.priority < a.priority ∨ (a.priority = b.priority ∧ a.created_at ≤ b.created_at)

instance : DecidableRel pendingBefore := fun a b => by
  unfold pendingBefore; infer_instance

/-- `getPendingSteamIds` (lines 250-259):
`SELECT ... FROM steam_ids WHERE status = 'pending'
ORDER BY priority DESC, created_at ASC LIMIT ?`. -/
def getPendingSteamIds (rows : List SteamIdRow) (limit : Nat) : List SteamIdRow :=
  ((rows.filter (fun r => r.status = "pending")).insertionSort pendingBefore).take limit

/-- A row of the `player_stats` table (the columns the two upserts touch). -/
structure PlayerStatsRow where
  steam_id64 : String
  player_name : Option String := none
  profile_url : Option String := none
  kd_ratio : Option DecimalVal := none
  hltv_rating : Option DecimalVal := none
  win_rate : Option String := none
  headshot_percentage : Option String := none
  clutch_success : Option String := none
  entry_success : Option String := none
  adr : Option Nat := none
  matches_played : Option Nat := none
  matches_won : Option Nat := none
  matches_lost : Option Nat := none
  matches_tied : Option Nat := none
  kills : Option Nat := none
  deaths : Option Nat := none
  assists : Option Nat := none
  headshots : Option Nat := none
  total_damage : Option Nat := none
  rounds_played : Option Nat := none
  last_scraped : Nat := 0
  scrape_success : Bool := false
  error_message : Option String := none
deriving Repr, DecidableEq

/-- The fields of `result.data` that `savePlayerStats` reads. -/
structure PlayerData where
  player_name : Option String := none
  profile_url : Option String := none
  kd_ratio : Option DecimalVal := none
  hltv_rating : Option DecimalVal := none
  win_rate : Option String := none
  headshot_percentage : Option String := none
  clutch_success : Option String := none
  entry_success : Option String := none
  adr : Option Nat := none
  matches_played : Option Nat := none
  matches_won : Option Nat := none
  matches_lost : Option Nat := none
  matches_tied : Option Nat := none
  kills : Option Nat := none
  deaths : Option Nat := none
  assists : Option Nat := none
  headshots : Option Nat := none
  total_damage : Option Nat := none
  rounds_played : Option Nat := none
deriving Repr, DecidableEq

/-- JS `v || null` for a possibly-absent number: `0` is falsy. -/
def jsOrNullN (v : Option Nat) : Option Nat :=
  match v with
  | some n => if n = 0 then none else some n
  | none => none

/-- JS `v || null` for a possibly-absent string: `""` is falsy. -/
def jsOrNullS (v : Option String) : Option String :=
  match v with
  | some s => if s = "" then none else some s
  | none => none

/-- JS `v || null` for a possibly-absent decimal: `0.0` is falsy. -/
def jsOrNullD (v : Option DecimalVal) : Option DecimalVal :=
  match v with
  | some x => if x = ⟨0, []⟩ then none else some x
  | none => none

/-- `savePlayerStats` (lines 300-362): INSERT ... ON DUPLICATE KEY UPDATE.
The update clause overwrites every listed column with the inserted VALUES
and sets `error_message = NULL`, so the resulting row does not depend on
the existing row; the parameter records that the write is an upsert. -/
def savePlayerStats (existing : Option PlayerStatsRow) (steamId64 : String)
    (p : PlayerData) (now : Nat) : PlayerStatsRow :=
  match existing with
  | _ =>
    { steam_id64 := steamId64
      player_name := jsOrNullS p.player_name
      profile_url := jsOrNullS p.profile_url
      kd_ratio := jsOrNullD p.kd_ratio
      hltv_rating := jsOrNullD p.hltv_rating
      win_rate := jsOrNullS p.win_rate
      headshot_percentage := jsOrNullS p.headshot_percentage
      clutch_success := jsOrNullS p.clutch_success
      entry_success := jsOrNullS p.entry_success
      adr := jsOrNullN p.adr
      matches_played := jsOrNullN p.matches_played
      matches_won := jsOrNullN p.matches_won
      matches_lost := jsOrNullN p.matches_lost
      matches_tied := jsOrNullN p.matches_tied
      kills := jsOrNullN p.kills
      deaths := jsOrNullN p.deaths
      assists := jsOrNullN p.assists
      headshots := jsOrNullN p.headshots
      total_damage := jsOrNullN p.total_damage
      rounds_played := jsOrNullN p.rounds_played
      last_scraped := now
      scrape_success := true
      error_message := none }

/-- `savePlayerStatsError` (lines 364-377): the failure upsert writes only
`last_scraped`, `scrape_success = FALSE` and `error_message`; on an existing
row every other column keeps its value. -/
def savePlayerStatsError (existing : Option PlayerStatsRow) (steamId64 : String)
    (errorMessage : String) (now : Nat) : PlayerStatsRow :=
  match existing with
  | none =>
    { steam_id64 := steamId64
      last_scraped := now
      scrape_success := false
      error_message := some errorMessage }
  | some r =>
    { r with
      last_scraped := now
      scrape_success := false
      error_message := some errorMessage }

/-- `getTopPlayers` (lines 394-412): the whitelist. -/
def validOrderBy : List String :=
  ["kd_ratio", "hltv_rating", "matches_played", "kills", "adr", "matches_won"]

/-- The query text as a function of the column interpolated into it. -/
def topPlayersTemplate (c : String) : String :=
  "SELECT steam_id64, player_name, " ++ c ++ ", matches_played, last_scraped FROM player_stats WHERE scrape_success = TRUE AND " ++ c ++ " IS NOT NULL ORDER BY " ++ c ++ " DESC LIMIT ?"

/-- The query text `getTopPlayers` builds: the argument is replaced by
`kd_ratio` unless it is whitelisted, then interpolated. -/
def getTopPlayersQuery (orderBy : String) : String :=
  let ob := if validOrderBy.contains orderBy then orderBy else "kd_ratio"
  topPlayersTemplate ob

/-! ## Batch orchestrator (ScraperManager, src/unnamed/part_001 lines 25-207)

Each database call is modelled as an effect that either appends the
corresponding operation to a trace or throws the error message a fault
oracle prescribes for that call site.  `processSingleSteamId` then mirrors
the JavaScript control flow literally: the `logScrapeStart` call sits
before the `try` block, the `catch` converts an error thrown inside the
body into the failure path, and the `finally` increments the processed
counter whenever the `try` was entered. -/

inductive DbOp where
  | logStart (id : String)
  | setStatus (id status : String)
  | saveStats (id : String) (data : ExtractResult)
  | saveError (id msg : String)
  | logSuccess (id : String) (time stats : Nat)
  | logFailure (id : String) (time : Nat) (msg : String)
deriving Repr, DecidableEq

/-- Fault oracle: for every database call site of the per-item procedure,
`none` means the call succeeds and `some m` means it throws `m`.  The
`..C` fields are the call sites inside the `catch` handler. -/
structure DbFaults where
  logStart : Option String := none
  setProcessing : Option String := none
  saveStats : Option String := none
  setCompleted : Option String := none
  logSuccess : Option String := none
  saveError : Option String := none
  setFailed : Option String := none
  logFailure : Option String := none
  saveErrorC : Option String := none
  setFailedC : Option String := none
  logFailureC : Option String := none
deriving Repr

def noFaults : DbFaults := {}

/-- Mutable state of the manager: trace of successful database writes plus
the three counters. -/
structure MgrState where
  ops : List DbOp := []
  processedCount : Nat := 0
  successCount : Nat := 0
  failureCount : Nat := 0
deriving Repr, DecidableEq

def addOp (s : MgrState) (op : DbOp) : MgrState :=
  { s with ops := s.ops ++ [op] }

def incProcessed (s : MgrState) : MgrState :=
  { s with processedCount := s.processedCount + 1 }

def incSuccess (s : MgrState) : MgrState :=
  { s with successCount := s.successCount + 1 }

def incFailure (s : MgrState) : MgrState :=
  { s with failureCount := s.failureCount + 1 }

/-- The value `processSingleSteamId` returns. -/
structure ItemResult where
  success : Bool
  steamId64 : String
  stats : Option Nat := none
  error : Option String := none
deriving Repr, DecidableEq

/-- Run one database call and continue with `k`, or throw. -/
def dbTry (fault : Option String) (op : DbOp) (s : MgrState)
    (k : MgrState → Except String ItemResult × MgrState) :
    Except String ItemResult × MgrState :=
  match fault with
  | some e => (Except.error e, s)
  | none => k (addOp s op)

/-- Placeholder for `result.data` when the scrape result carries none. -/
def emptyResult : ExtractResult :=
  { player_info := { steam_id64 := "", player_name := "Unknown", profile_url := "" }
    stats := {} }

/-- The `try` body of `processSingleSteamId` (part_001 lines 51-90). -/
def runItemBody (f : DbFaults) (id : String) (scrape : ScrapeResult) (et : Nat)
    (s : MgrState) : Except String ItemResult × MgrState :=
  dbTry f.setProcessing (.setStatus id "processing") s (fun s =>
    if scrape.success then
      dbTry f.saveStats (.saveStats id (scrape.data.getD emptyResult)) s (fun s =>
        dbTry f.setCompleted (.setStatus id "completed") s (fun s =>
          dbTry f.logSuccess (.logSuccess id et scrape.statsCount) s (fun s =>
            (Except.ok { success := true, steamId64 := id, stats := some scrape.statsCount },
             incSuccess s))))
    else
      dbTry f.saveError (.saveError id (scrape.error.getD "")) s (fun s =>
        dbTry f.setFailed (.setStatus id "failed") s (fun s =>
          dbTry f.logFailure (.logFailure id et (scrape.error.getD "")) s (fun s =>
            (Except.ok { success := false, steamId64 := id, error := scrape.error },
             incFailure s)))))

/-- The `catch` handler of `processSingleSteamId` (lines 91-100). -/
def runItemCatch (f : DbFaults) (id : String) (e : String) (s : MgrState) :
    Except String ItemResult × MgrState :=
  dbTry f.saveErrorC (.saveError id e) s (fun s =>
    dbTry f.setFailedC (.setStatus id "failed") s (fun s =>
      dbTry f.logFailureC (.logFailure id 0 e) s (fun s =>
        (Except.ok { success := false, steamId64 := id, error := some e },
         incFailure s))))

/-- `processSingleSteamId` (lines 48-104).  `logScrapeStart` precedes the
`try`, so a fault there propagates with no `finally` increment; a fault
inside the body reaches the `catch`; a fault inside the `catch` itself
propagates after the `finally` increment, exactly as in JavaScript. -/
def processSingleSteamId (f : DbFaults) (id : String) (scrape : ScrapeResult)
    (et : Nat) (s : MgrState) : Except String ItemResult × MgrState :=
  match f.logStart with
  | some e => (Except.error e, s)
  | none =>
    let s0 := addOp s (.logStart id)
    let afterCatch :=
      match runItemBody f id scrape et s0 with
      | (Except.ok r, s1) => (Except.ok r, s1)
      | (Except.error e, s1) => runItemCatch f id e s1
    (afterCatch.1, incProcessed afterCatch.2)

/-- The `for` loop of `processBatch` (lines 120-134).  `flags k` is the
value of the cooperative `isRunning` flag when it is read before starting
item `k`; the flag is read at no other point, so an in-flight item is never
interrupted.  A thrown error aborts the loop and is rethrown by the batch
(lines 143-146). -/
def processBatchLoop (faultsOf : String → DbFaults) (scrapeOf : String → ScrapeResult)
    (etOf : String → Nat) (flags : Nat → Bool) :
    List String → MgrState → Except String (List ItemResult) × MgrState
  | [], s => (Except.ok [], s)
  | id :: rest, s =>
    if flags 0 then
      match processSingleSteamId (faultsOf id) id (scrapeOf id) (etOf id) s with
      | (Except.ok r, s1) =>
        match processBatchLoop faultsOf scrapeOf etOf (fun i => flags (i + 1)) rest s1 with
        | (Except.ok rs, s2) => (Except.ok (r :: rs), s2)
        | (Except.error e, s2) => (Except.error e, s2)
      | (Except.error e, s1) => (Except.error e, s1)
    else (Except.ok [], s)

structure BatchResult where
  processed : Nat
  successful : Nat
  failed : Nat
  completed : Bool
deriving Repr, DecidableEq

/-- `processBatch` (lines 106-147): empty selection short-circuits with
`completed = true`; otherwise the loop runs and the result always reports
`completed = false`. -/
def processBatch (faultsOf : String → DbFaults) (scrapeOf : String → ScrapeResult)
    (etOf : String → Nat) (flags : Nat → Bool) (pending : List String)
    (s : MgrState) : Except String BatchResult × MgrState :=
  if pending.isEmpty then
    (Except.ok { processed := 0, successful := 0, failed := 0, completed := true }, s)
  else
    match processBatchLoop faultsOf scrapeOf etOf flags pending s with
    | (Except.ok results, s1) =>
      (Except.ok
        { processed := results.length
          successful := (results.filter (fun r => r.success)).length
          failed := (results.filter (fun r => !r.success)).length
          completed := false }, s1)
    | (Except.error e, s1) => (Except.error e, s1)

/-- The status an identifier is left with after a trace of database writes:
the last `setStatus` recorded for it, if any. -/
def statusOf (id : String) : DbOp → Option String
  | .setStatus i st => if i = id then some st else none
  | _ => none

def lastStatus (ops : List DbOp) (id : String) : Option String :=
  ops.foldl (fun acc op => (statusOf id op).elim acc some) none

/-- Number of loop iterations before the first `false` flag read, capped by
the batch length: how many items a cancelled batch still processes. -/
def prefixTrue (flags : Nat → Bool) : Nat → Nat
  | 0 => 0
  | n + 1 => if flags 0 then prefixTrue (fun i => flags (i + 1)) n + 1 else 0

/-! ## Example documents and concrete fixtures used by the theorems -/

/-- Document with two svg gauges in document order, both labelled `K/D`,
carrying `1.10` and then `2.20`. -/
def c1doc : Document :=
  { elems :=
      [ { children := [1, 2] },
        { tag := "span", textContent := "K/D", parent := some 0 },
        { tag := "svg", parent := some 0, children := [3] },
        { tag := "text", textContent := "1.10", parent := some 2 },
        { children := [5, 6] },
        { tag := "span", textContent := "K/D", parent := some 4 },
        { tag := "svg", parent := some 4, children := [7] },
        { tag := "text", textContent := "2.20", parent := some 6 } ] }

/-- Document where the integer pass classifies kills from context text and
the fallback label `KILLS` sits next to a different value. -/
def cfdoc : Document :=
  { elems :=
      [ { textContent := "Kills 5", children := [1] },
        { textContent := "5", parent := some 0 },
        { children := [3, 4] },
        { tag := "span", textContent := "KILLS", parent := some 2 },
        { tag := "span", textContent := "7", parent := some 2 } ] }

/-- The three integer nodes of claim C6, each a child of an element whose
text supplies the claimed context. -/
def c6doc : Document :=
  { elems :=
      [ { textContent := "Kills: 4821", children := [1] },
        { textContent := "4821", parent := some 0 },
        { textContent := "Deaths 3190", children := [3] },
        { textContent := "3190", parent := some 2 },
        { textContent := "Rounds Played 18452", children := [5] },
        { textContent := "18452", parent := some 4 } ] }

/-- A fallback label `KILLS` adjacent to the value `0`. -/
def czdoc : Document :=
  { elems :=
      [ { children := [1, 2] },
        { tag := "span", textContent := "KILLS", parent := some 0 },
        { tag := "span", textContent := "0", parent := some 0 } ] }

/-! ### Per-field match values

For each field a pass can write, the value its branch would store at a
given node, or `none` when that node does not reach the branch.  Each
function replicates the guard chain of the corresponding pass step, so that
the pass steps can be characterized field by field: the new value of a
field is the match value when the node matches — regardless of the prior
state — and the prior value otherwise. -/

/-- Value the `kd_ratio` branch of `decimalStep` stores at node `i`. -/
def kdValueAt (d : Document) (i : Nat) : Option DecimalVal :=
  let text := getTextAt d (some i)
  if matchDecRe text then
    match (closestTag d "svg" i).bind (parentOf d) with
    | some p =>
      match (firstChildOf d p).map (fun c => jsLower (rawTextAt d c)) with
      | some lb =>
        if jsIncludes lb "k/d" || jsIncludes lb "kd" then some (parseFloatDec text)
        else none
      | none => none
    | none => none
  else none

/-- Value the `hltv_rating` branch of `decimalStep` stores at node `i`. -/
def hltvValueAt (d : Document) (i : Nat) : Option DecimalVal :=
  let text := getTextAt d (some i)
  if matchDecRe text then
    match (closestTag d "svg" i).bind (parentOf d) with
    | some p =>
      match (firstChildOf d p).map (fun c => jsLower (rawTextAt d c)) with
      | some lb =>
        if jsIncludes lb "k/d" || jsIncludes lb "kd" then none
        else if jsIncludes lb "hltv" || jsIncludes lb "rating" then
          some (parseFloatDec text)
        else none
      | none => none
    | none => none
  else none

/-- Value the `win_rate` branch of `percentStep` stores at node `i`. -/
def winRateValueAt (d : Document) (i : Nat) : Option String :=
  let text := getTextAt d (some i)
  if matchPctRe text then
    let context :=
      jsLower (match parentOf d i with
               | some p => rawTextAt d p
               | none => "")
    if jsIncludes context "win" then some text else none
  else none

/-- Value the `headshot_percentage` branch of `percentStep` stores at node `i`. -/
def headshotPctValueAt (d : Document) (i : Nat) : Option String :=
  let text := getTextAt d (some i)
  if matchPctRe text then
    let context :=
      jsLower (match parentOf d i with
               | some p => rawTextAt d p
               | none => "")
    if jsIncludes context "win" then none
    else if jsIncludes context "hs" || jsIncludes context "headshot" then some text
    else none
  else none

/-- Value the `clutch_success` branch of `percentStep` stores at node `i`. -/
def clutchValueAt (d : Document) (i : Nat) : Option String :=
  let text := getTextAt d (some i)
  if matchPctRe text then
    let context :=
      jsLower (match parentOf d i with
               | some p => rawTextAt d p
               | none => "")
    if jsIncludes context "win" then none
    else if jsIncludes context "hs" || jsIncludes context "headshot" then none
    else if jsIncludes context "clutch" then some text
    else none
  else none

/-- Value the `entry_success` branch of `percentStep` stores at node `i`. -/
def entryValueAt (d : Document) (i : Nat) : Option String :=
  let text := getTextAt d (some i)
  if matchPctRe text then
    let context :=
      jsLower (match parentOf d i with
               | some p => rawTextAt d p
               | none => "")
    if jsIncludes context "win" then none
    else if jsIncludes context "hs" || jsIncludes context "headshot" then none
    else if jsIncludes context "clutch" then none
    else if jsIncludes context "entry" then some text
    else none
  else none

/-- The field, if any, that `integerKeywordRoute` would write for a given
context string and parsed value, together with that value. -/
def keywordRouteTarget (context : String) (num : Nat) : Option (LabelField × Nat) :=
  if jsIncludes context "kill" && !jsIncludes context "death" then
    some (.kills, num)
  else if jsIncludes context "death" && !jsIncludes context "kill" then
    some (.deaths, num)
  else if jsIncludes context "assist" then some (.assists, num)
  else if jsIncludes context "headshot" && num < 50000 then
    some (.headshots, num)
  else if jsIncludes context "played" || jsIncludes context "match" then
    some (.matches_played, num)
  else if jsIncludes context "won" && num < 10000 then
    some (.matches_won, num)
  else if jsIncludes context "lost" && num < 10000 then
    some (.matches_lost, num)
  else if jsIncludes context "round" && 1000 < num then
    some (.rounds_played, num)
  else if jsIncludes context "damage" && 100000 < num then
    some (.total_damage, num)
  else none

/-- The field, if any, that the keyword routing of `integerStep` targets at
node `i`, together with the parsed value. -/
def integerRouteAt (d : Document) (i : Nat) : Option (LabelField × Nat) :=
  let text := getTextAt d (some i)
  let parentText := getTextAt d (parentOf d i)
  let context := jsLower (text ++ " " ++ parentText)
  if matchIntRe text then
    let num := parseDigits text.data
    if 0 < num then keywordRouteTarget context num else none
  else none

/-- Restriction of a routing outcome to one field. -/
def routeVal (r : Option (LabelField × Nat)) (fld : LabelField) : Option Nat :=
  r.bind (fun p => if p.1 = fld then some p.2 else none)

/-- Value the ADR statement of `integerStep` stores at node `i`. -/
def adrValueAt (d : Document) (i : Nat) : Option Nat :=
  let text := getTextAt d (some i)
  let parentText := getTextAt d (parentOf d i)
  let context := jsLower (text ++ " " ++ parentText)
  if matchAdrRe text && jsIncludes context "adr" then some (parseDigits text.data)
  else none

/-- Folding match values over the nodes of a pass: the value of the last
matching node in document order, or the initial value when no node
matches.  The prior field value enters only through `x`, so a pass whose
field satisfies this shape overwrites unconditionally on every match. -/
def lastAssigned {α : Type} (val : Nat → Option α) (l : List Nat) (x : Option α) : Option α :=
  l.foldl (fun acc i => (val i).elim acc some) x

/-- Evolution of one optional field under a pass: unchanged, or assigned a
strictly positive value. -/
def stepRel (x y : Option Nat) : Prop :=
  y = x ∨ ∃ n, y = some n ∧ 0 < n

instance : IsTotal SteamIdRow pendingBefore :=
  ⟨by intro a b; unfold pendingBefore; omega⟩

instance : IsTrans SteamIdRow pendingBefore :=
  ⟨by intro a b c hab hbc; unfold pendingBefore at *; omega⟩

def rowA : SteamIdRow := ⟨"A", 1, 5, 10, "pending"⟩
def rowB : SteamIdRow := ⟨"B", 2, 5, 20, "pending"⟩
def rowC : SteamIdRow := ⟨"C", 3, 1, 5, "pending"⟩

/-- The fault oracle entries whose failure would escape the per-item
`try`/`catch`: the unguarded `logScrapeStart` call and the three calls
inside the `catch` handler itself. -/
def cleanHandler (f : DbFaults) : Prop :=
  f.logStart = none ∧ f.saveErrorC = none ∧ f.setFailedC = none ∧ f.logFailureC = none

def failScrape : ScrapeResult := { success := false, error := some "HTTP 404: Not Found" }

def okScrape : ScrapeResult := { success := true, data := some emptyResult, statsCount := 1 }

def mixedScrape : String → ScrapeResult := fun id => if id = "B" then failScrape else okScrape

/-! # Theorems -/

/-! ## C8 -/

/-- C8: the extraction transform is a deterministic pure function of the
document snapshot.  The embedding of the `page.evaluate` callback takes the
snapshot as its only input — it reads no clock, network or mutable state —
so two evaluations on the same snapshot are definitionally equal. -/
theorem c8_extract_deterministic (d : Document) : extract d = extract d := rfl

/-! ## C9 -/

/-- C9: whatever `orderBy` argument `getTopPlayers` receives, the column
interpolated into the query text is one of the six whitelisted columns;
anything outside the whitelist is replaced by `kd_ratio`. -/
theorem c9_orderBy_whitelisted (s : String) :
    ∃ c ∈ validOrderBy, getTopPlayersQuery s = topPlayersTemplate c := by
  by_cases h : validOrderBy.contains s = true
  · have hm : s ∈ validOrderBy := List.mem_of_elem_eq_true h
    exact ⟨s, hm, by simp [getTopPlayersQuery, hm]⟩
  · have hm : ¬s ∈ validOrderBy := fun hmem => h (List.elem_eq_true_of_mem hmem)
    exact ⟨"kd_ratio", by simp [validOrderBy], by simp [getTopPlayersQuery, hm]⟩

/-! ## C5 -/

/-- C5: StatRecord writes are asymmetric upserts.  A success write yields a
row independent of the existing one (every stat column overwritten) with
`error_message` cleared, while a failure write on an existing row changes
only `last_scraped`, `scrape_success` and `error_message`, leaving every
stat field unchanged. -/
theorem c5_upsert_asymmetry (ex : Option PlayerStatsRow) (id : String)
    (p : PlayerData) (now : Nat) (r : PlayerStatsRow) (msg : String) :
    savePlayerStats ex id p now = savePlayerStats none id p now ∧
    (savePlayerStats ex id p now).scrape_success = true ∧
    (savePlayerStats ex id p now).error_message = none ∧
    (savePlayerStats ex id p now).kills = jsOrNullN p.kills ∧
    (savePlayerStats ex id p now).kd_ratio = jsOrNullD p.kd_ratio ∧
    (savePlayerStatsError (some r) id msg now).scrape_success = false ∧
    (savePlayerStatsError (some r) id msg now).error_message = some msg ∧
    (savePlayerStatsError (some r) id msg now).last_scraped = now ∧
    (savePlayerStatsError (some r) id msg now).player_name = r.player_name ∧
    (savePlayerStatsError (some r) id msg now).profile_url = r.profile_url ∧
    (savePlayerStatsError (some r) id msg now).kd_ratio = r.kd_ratio ∧
    (savePlayerStatsError (some r) id msg now).hltv_rating = r.hltv_rating ∧
    (savePlayerStatsError (some r) id msg now).win_rate = r.win_rate ∧
    (savePlayerStatsError (some r) id msg now).headshot_percentage = r.headshot_percentage ∧
    (savePlayerStatsError (some r) id msg now).clutch_success = r.clutch_success ∧
    (savePlayerStatsError (some r) id msg now).entry_success = r.entry_success ∧
    (savePlayerStatsError (some r) id msg now).adr = r.adr ∧
    (savePlayerStatsError (some r) id msg now).matches_played = r.matches_played ∧
    (savePlayerStatsError (some r) id msg now).matches_won = r.matches_won ∧
    (savePlayerStatsError (some r) id msg now).matches_lost = r.matches_lost ∧
    (savePlayerStatsError (some r) id msg now).matches_tied = r.matches_tied ∧
    (savePlayerStatsError (some r) id msg now).kills = r.kills ∧
    (savePlayerStatsError (some r) id msg now).deaths = r.deaths ∧
    (savePlayerStatsError (some r) id msg now).assists = r.assists ∧
    (savePlayerStatsError (some r) id msg now).headshots = r.headshots ∧
    (savePlayerStatsError (some r) id msg now).total_damage = r.total_damage ∧
    (savePlayerStatsError (some r) id msg now).rounds_played = r.rounds_played := by
  refine ⟨?_, rfl, rfl, rfl, rfl, rfl, rfl, rfl, rfl, rfl, rfl, rfl, rfl, rfl,
    rfl, rfl, rfl, rfl, rfl, rfl, rfl, rfl, rfl, rfl, rfl, rfl, rfl⟩
  cases ex <;> rfl

/-! ## C6 -/

/-- C6 counterexample: on the claimed document the integer pass routes the
node with context `Rounds Played 18452` to `matches_played` (the `played`
keyword is tested before `round`), so `rounds_played` is NOT assigned
`18452` as the claim states. -/
theorem c6_counterexample :
    (extract c6doc).stats.rounds_played = none ∧
    (extract c6doc).stats.matches_played = some 18452 := ⟨rfl, rfl⟩

/-- C6 amended: the integer pass assigns `kills = 4821` and `deaths = 3190`
as claimed, but `18452` goes to `matches_played` because the
`played`/`match` branch precedes the `round` branch; `rounds_played` stays
unset and `total_damage` is not cross-assigned. -/
theorem c6_amended :
    (extract c6doc).stats =
      { kills := some 4821, deaths := some 3190, matches_played := some 18452 } := rfl

/-! ## C1 -/

/-- C1 counterexample: in `c1doc` the first `text` node matching the
decimal-pair rule for `kd_ratio` carries `1.10`, a later one carries
`2.20`.  First-match-wins would leave `kd_ratio = 1.1`; the code stores the
later match, `2.2`.  Likewise, in `cfdoc` the integer pass first assigns
`kills = 5` and the label-adjacency fallback then overwrites it with `7`
although the field was already set. -/
theorem c1_counterexample :
    (extract c1doc).stats.kd_ratio = some ⟨2, ['2']⟩ ∧
    (some (DecimalVal.mk 2 ['2']) ≠ some ⟨1, ['1']⟩) ∧
    (integerPass cfdoc (percentPass cfdoc (decimalPass cfdoc {}))).kills = some 5 ∧
    (extract cfdoc).stats.kills = some 7 := by
  refine ⟨rfl, ?_, rfl, rfl⟩
  decide

theorem getLabelField_setLabelField (st : ExtractedStats) (fld : LabelField) (v : Nat) :
    getLabelField (setLabelField st fld v) fld = some v := by
  cases fld <;> rfl

/-- `decimalStep` characterized field by field: each of its two fields gets
the match value of the node — independently of the prior state — when the
node matches, and keeps its prior value otherwise. -/
theorem decimalStep_char (d : Document) (st : ExtractedStats) (i : Nat) :
    (decimalStep d st i).kd_ratio = (kdValueAt d i).elim st.kd_ratio some ∧
    (decimalStep d st i).hltv_rating = (hltvValueAt d i).elim st.hltv_rating some := by
  unfold decimalStep kdValueAt hltvValueAt
  dsimp only
  repeat' split
  all_goals exact ⟨rfl, rfl⟩

/-- `percentStep` characterized field by field. -/
theorem percentStep_char (d : Document) (st : ExtractedStats) (i : Nat) :
    (percentStep d st i).win_rate = (winRateValueAt d i).elim st.win_rate some ∧
    (percentStep d st i).headshot_percentage
      = (headshotPctValueAt d i).elim st.headshot_percentage some ∧
    (percentStep d st i).clutch_success = (clutchValueAt d i).elim st.clutch_success some ∧
    (percentStep d st i).entry_success = (entryValueAt d i).elim st.entry_success some := by
  unfold percentStep winRateValueAt headshotPctValueAt clutchValueAt entryValueAt
  dsimp only
  repeat' split
  all_goals exact ⟨rfl, rfl, rfl, rfl⟩

set_option maxHeartbeats 2000000 in
/-- `integerKeywordRoute` characterized against `keywordRouteTarget`. -/
theorem integerKeywordRoute_char (st : ExtractedStats) (context : String) (num : Nat)
    (fld : LabelField) :
    getLabelField (integerKeywordRoute st context num) fld
      = (routeVal (keywordRouteTarget context num) fld).elim (getLabelField st fld) some := by
  unfold integerKeywordRoute keywordRouteTarget routeVal
  by_cases h1 : (jsIncludes context "kill" && !jsIncludes context "death") = true
  · simp only [if_pos h1]
    cases fld <;> rfl
  · simp only [if_neg h1]
    by_cases h2 : (jsIncludes context "death" && !jsIncludes context "kill") = true
    · simp only [if_pos h2]
      cases fld <;> rfl
    · simp only [if_neg h2]
      by_cases h3 : jsIncludes context "assist" = true
      · simp only [if_pos h3]
        cases fld <;> rfl
      · simp only [if_neg h3]
        by_cases h4 : (jsIncludes context "headshot" && decide (num < 50000)) = true
        · simp only [if_pos h4]
          cases fld <;> rfl
        · simp only [if_neg h4]
          by_cases h5 : (jsIncludes context "played" || jsIncludes context "match") = true
          · simp only [if_pos h5]
            cases fld <;> rfl
          · simp only [if_neg h5]
            by_cases h6 : (jsIncludes context "won" && decide (num < 10000)) = true
            · simp only [if_pos h6]
              cases fld <;> rfl
            · simp only [if_neg h6]
              by_cases h7 : (jsIncludes context "lost" && decide (num < 10000)) = true
              · simp only [if_pos h7]
                cases fld <;> rfl
              · simp only [if_neg h7]
                by_cases h8 : (jsIncludes context "round" && decide (1000 < num)) = true
                · simp only [if_pos h8]
                  cases fld <;> rfl
                · simp only [if_neg h8]
                  by_cases h9 : (jsIncludes context "damage" && decide (100000 < num)) = true
                  · simp only [if_pos h9]
                    cases fld <;> rfl
                  · simp only [if_neg h9]
                    cases fld <;> rfl

theorem integerKeywordRoute_adr (st : ExtractedStats) (context : String) (num : Nat) :
    (integerKeywordRoute st context num).adr = st.adr := by
  unfold integerKeywordRoute
  split_ifs <;> rfl

/-- The keyword routing of `integerStep` characterized for every catalog
field. -/
theorem integerStep_route_char (d : Document) (st : ExtractedStats) (i : Nat)
    (fld : LabelField) :
    getLabelField (integerStep d st i) fld
      = (routeVal (integerRouteAt d i) fld).elim (getLabelField st fld) some := by
  unfold integerStep integerRouteAt
  dsimp only
  split_ifs <;>
    first
      | exact integerKeywordRoute_char st _ _ fld
      | rfl

/-- The ADR statement of `integerStep` characterized. -/
theorem integerStep_adr_char (d : Document) (st : ExtractedStats) (i : Nat) :
    (integerStep d st i).adr = (adrValueAt d i).elim st.adr some := by
  unfold integerStep adrValueAt
  dsimp only
  split_ifs <;>
    first
      | rfl
      | (rw [integerKeywordRoute_adr]; rfl)

/-- A step-level field characterization lifts to the whole pass: the field
after the fold is the value of the last matching node. -/
theorem foldl_lastAssigned {α : Type} (step : ExtractedStats → Nat → ExtractedStats)
    (getF : ExtractedStats → Option α) (val : Nat → Option α)
    (h : ∀ st i, getF (step st i) = (val i).elim (getF st) some) :
    ∀ (l : List Nat) (st : ExtractedStats),
      getF (l.foldl step st) = lastAssigned val l (getF st) := by
  intro l
  induction l with
  | nil => intro st; rfl
  | cons a t ih =>
    intro st
    rw [List.foldl_cons, ih, h]
    rfl

/-- C1 amended: assignments in the classification passes are unconditional,
so for every field of every pass the LAST match in document order wins: the
field after the pass is `lastAssigned` of the per-node match values — the
prior value enters only when no node matches.  This covers both decimal
fields over the `text` elements, all four percentage fields, all nine
keyword-routed integer fields plus ADR, and the label-adjacency fallback,
which also assigns its mapped field regardless of whether the field was
already set. -/
theorem c1_amended :
    (∀ (d : Document) (st : ExtractedStats),
        (decimalPass d st).kd_ratio
          = lastAssigned (kdValueAt d) (textElemsIdx d) st.kd_ratio ∧
        (decimalPass d st).hltv_rating
          = lastAssigned (hltvValueAt d) (textElemsIdx d) st.hltv_rating) ∧
    (∀ (d : Document) (st : ExtractedStats),
        (percentPass d st).win_rate
          = lastAssigned (winRateValueAt d) (allIdx d) st.win_rate ∧
        (percentPass d st).headshot_percentage
          = lastAssigned (headshotPctValueAt d) (allIdx d) st.headshot_percentage ∧
        (percentPass d st).clutch_success
          = lastAssigned (clutchValueAt d) (allIdx d) st.clutch_success ∧
        (percentPass d st).entry_success
          = lastAssigned (entryValueAt d) (allIdx d) st.entry_success) ∧
    (∀ (d : Document) (st : ExtractedStats) (fld : LabelField),
        getLabelField (integerPass d st) fld
          = lastAssigned (fun i => routeVal (integerRouteAt d i) fld) (allIdx d)
              (getLabelField st fld)) ∧
    (∀ (d : Document) (st : ExtractedStats),
        (integerPass d st).adr = lastAssigned (adrValueAt d) (allIdx d) st.adr) ∧
    (∀ (d : Document) (st : ExtractedStats) (li : Nat) (p : String × LabelField) (v : Nat),
        (allIdx d).find? (fun i => jsUpper (getTextAt d (some i)) = p.1) = some li →
        siblingWindowValue d li p.1 = some v →
        getLabelField (fallbackStep d st p) p.2 = some v) := by
  refine ⟨fun d st => ⟨?_, ?_⟩, fun d st => ⟨?_, ?_, ?_, ?_⟩, fun d st fld => ?_,
    fun d st => ?_, fun d st li p v hfind hsib => ?_⟩
  · exact foldl_lastAssigned (decimalStep d) (fun x => x.kd_ratio) (kdValueAt d)
      (fun st i => (decimalStep_char d st i).1) (textElemsIdx d) st
  · exact foldl_lastAssigned (decimalStep d) (fun x => x.hltv_rating) (hltvValueAt d)
      (fun st i => (decimalStep_char d st i).2) (textElemsIdx d) st
  · exact foldl_lastAssigned (percentStep d) (fun x => x.win_rate) (winRateValueAt d)
      (fun st i => (percentStep_char d st i).1) (allIdx d) st
  · exact foldl_lastAssigned (percentStep d) (fun x => x.headshot_percentage)
      (headshotPctValueAt d) (fun st i => (percentStep_char d st i).2.1) (allIdx d) st
  · exact foldl_lastAssigned (percentStep d) (fun x => x.clutch_success) (clutchValueAt d)
      (fun st i => (percentStep_char d st i).2.2.1) (allIdx d) st
  · exact foldl_lastAssigned (percentStep d) (fun x => x.entry_success) (entryValueAt d)
      (fun st i => (percentStep_char d st i).2.2.2) (allIdx d) st
  · exact foldl_lastAssigned (integerStep d) (fun x => getLabelField x fld)
      (fun i => routeVal (integerRouteAt d i) fld)
      (fun st i => integerStep_route_char d st i fld) (allIdx d) st
  · exact foldl_lastAssigned (integerStep d) (fun x => x.adr) (adrValueAt d)
      (fun st i => integerStep_adr_char d st i) (allIdx d) st
  · unfold fallbackStep
    rw [hfind]
    dsimp only
    rw [hsib]
    exact getLabelField_setLabelField st p.2 v

/-- C1 amended witness: on `cfdoc` the fallback label `KILLS` overwrites a
state that already holds `kills = 5` with the sibling value `7`. -/
theorem c1_amended_witness :
    getLabelField
        (fallbackStep cfdoc { kills := some 5 } ("KILLS", LabelField.kills))
        LabelField.kills = some 7 :=
  c1_amended.2.2.2.2 cfdoc { kills := some 5 } 3 ("KILLS", LabelField.kills) 7
    (by decide) (by decide)

/-! ## C10 -/

theorem stepRel_refl (x : Option Nat) : stepRel x x := Or.inl rfl

theorem stepRel_trans {x y z : Option Nat} (h1 : stepRel x y) (h2 : stepRel y z) :
    stepRel x z := by
  rcases h2 with rfl | h
  · exact h1
  · exact Or.inr h

theorem getLabelField_adr (st : ExtractedStats) (v : Option Nat) (fld : LabelField) :
    getLabelField { st with adr := v } fld = getLabelField st fld := by
  cases fld <;> rfl

theorem integerKeywordRoute_stepRel (context : String) (num : Nat)
    (hpos : 0 < num) (st : ExtractedStats) (fld : LabelField) :
    stepRel (getLabelField st fld) (getLabelField (integerKeywordRoute st context num) fld) := by
  unfold integerKeywordRoute
  split_ifs <;> cases fld <;>
    first | exact Or.inl rfl | exact Or.inr ⟨_, rfl, hpos⟩

theorem integerStep_stepRel (d : Document) (st : ExtractedStats) (i : Nat)
    (fld : LabelField) :
    stepRel (getLabelField st fld) (getLabelField (integerStep d st i) fld) := by
  unfold integerStep
  dsimp only
  split_ifs <;>
    first
      | exact stepRel_refl _
      | (rw [getLabelField_adr]
         first
           | exact stepRel_refl _
           | exact integerKeywordRoute_stepRel _ _ (by assumption) st fld)

/-- C10: the keyword-routed integer pass only ever assigns a field when the
parsed value is strictly positive — every field it touches either keeps its
previous value or receives `some n` with `0 < n`, so a bare `"0"` node is
never recorded by context routing.  The label-adjacency fallback has no
such guard: on `czdoc` it records `kills = 0`. -/
theorem c10_integer_pass_positive (d : Document) (st : ExtractedStats) (fld : LabelField) :
    stepRel (getLabelField st fld) (getLabelField (integerPass d st) fld) ∧
    (extract czdoc).stats.kills = some 0 := by
  constructor
  · unfold integerPass
    generalize allIdx d = l
    induction l generalizing st with
    | nil => exact stepRel_refl _
    | cons a t ih =>
      rw [List.foldl_cons]
      exact stepRel_trans (integerStep_stepRel d st a fld) (ih _)
  · rfl

/-! ## C2 -/

/-- C2: `getPendingSteamIds` returns at most `limit` rows, all of them
pending, sorted by priority descending and created_at ascending within
equal priority; and on the concrete table {A(5, older), B(5, newer),
C(1)} a batch of size 2 is exactly [A, B]. -/
theorem c2_batch_selection (rows : List SteamIdRow) (limit : Nat) :
    (getPendingSteamIds rows limit).length ≤ limit ∧
    (∀ r ∈ getPendingSteamIds rows limit, r.status = "pending") ∧
    List.Sorted pendingBefore (getPendingSteamIds rows limit) ∧
    getPendingSteamIds [rowB, rowC, rowA] 2 = [rowA, rowB] := by
  refine ⟨?_, ?_, ?_, ?_⟩
  · simp [getPendingSteamIds]
  · intro r hr
    have h1 : r ∈ (rows.filter (fun r => r.status = "pending")).insertionSort pendingBefore :=
      List.mem_of_mem_take hr
    have h2 : r ∈ rows.filter (fun r => r.status = "pending") :=
      (List.perm_insertionSort pendingBefore _).mem_iff.mp h1
    simpa using (List.mem_filter.mp h2).2
  · exact List.Pairwise.sublist (List.take_sublist _ _)
      (List.sorted_insertionSort pendingBefore _)
  · rfl

/-- C2 witness at the concrete table. -/
theorem c2_batch_selection_witness :
    (getPendingSteamIds [rowB, rowC, rowA] 2).length ≤ 2 :=
  (c2_batch_selection [rowB, rowC, rowA] 2).1

/-! ## Trace helpers for the orchestrator claims -/

theorem lastStatus_append (a b : List DbOp) (j : String) :
    lastStatus (a ++ b) j =
      b.foldl (fun acc op => (statusOf j op).elim acc some) (lastStatus a j) := by
  unfold lastStatus
  rw [List.foldl_append]

theorem noFaults_cleanHandler : cleanHandler noFaults := ⟨rfl, rfl, rfl, rfl⟩

theorem runItemCatch_ok (f : DbFaults) (hc1 : f.saveErrorC = none)
    (hc2 : f.setFailedC = none) (hc3 : f.logFailureC = none)
    (id e : String) (s : MgrState) :
    runItemCatch f id e s =
      (Except.ok { success := false, steamId64 := id, error := some e },
       incFailure (addOp (addOp (addOp s (.saveError id e))
         (.setStatus id "failed")) (.logFailure id 0 e))) := by
  unfold runItemCatch dbTry
  rw [hc1, hc2, hc3]

/-- Whatever the fault oracle does inside the `try` body: the processed
counter is untouched, no other identifier gets a status write, and when the
body completes normally the identifier ends `completed` or `failed`. -/
theorem runItemBody_spec (f : DbFaults) (id : String) (scrape : ScrapeResult)
    (et : Nat) (s : MgrState) :
    (runItemBody f id scrape et s).2.processedCount = s.processedCount ∧
    (∀ j, j ≠ id → lastStatus (runItemBody f id scrape et s).2.ops j = lastStatus s.ops j) ∧
    ((∃ e s1, runItemBody f id scrape et s = (Except.error e, s1)) ∨
     (∃ r, (runItemBody f id scrape et s).1 = Except.ok r ∧
        (lastStatus (runItemBody f id scrape et s).2.ops id = some "completed" ∨
         lastStatus (runItemBody f id scrape et s).2.ops id = some "failed"))) := by
  unfold runItemBody dbTry
  repeat' split
  all_goals
    refine ⟨by simp [addOp, incFailure, incSuccess], fun j hj => by
      simp [lastStatus, statusOf, addOp, incFailure, incSuccess, Ne.symm hj], ?_⟩
  all_goals
    first
      | exact Or.inl ⟨_, _, rfl⟩
      | (refine Or.inr ⟨_, rfl, ?_⟩
         simp [lastStatus, statusOf, addOp, incFailure, incSuccess])

/-- Per-item spec under a clean handler: the procedure returns normally,
increments the processed counter exactly once, leaves its identifier in a
terminal status, and writes no status for any other identifier. -/
theorem processSingle_spec (f : DbFaults) (hf : cleanHandler f) (id : String)
    (scrape : ScrapeResult) (et : Nat) (s : MgrState) :
    (∃ r, (processSingleSteamId f id scrape et s).1 = Except.ok r) ∧
    (processSingleSteamId f id scrape et s).2.processedCount = s.processedCount + 1 ∧
    (lastStatus (processSingleSteamId f id scrape et s).2.ops id = some "completed" ∨
     lastStatus (processSingleSteamId f id scrape et s).2.ops id = some "failed") ∧
    (∀ j, j ≠ id → lastStatus (processSingleSteamId f id scrape et s).2.ops j = lastStatus s.ops j) := by
  obtain ⟨h0, hc1, hc2, hc3⟩ := hf
  unfold processSingleSteamId
  rw [h0]
  dsimp only
  obtain ⟨hproc, hframe, hcases⟩ := runItemBody_spec f id scrape et (addOp s (.logStart id))
  rcases hcases with ⟨e, s1, heq⟩ | ⟨r, hok, hterm⟩
  · rw [heq] at hproc hframe
    rw [heq]
    dsimp only
    rw [runItemCatch_ok f hc1 hc2 hc3 id e s1]
    dsimp only at hproc
    simp only [addOp] at hproc
    refine ⟨⟨_, rfl⟩, ?_, ?_, ?_⟩
    · simp [incProcessed, incFailure, addOp, hproc]
    · refine Or.inr ?_
      simp [incProcessed, incFailure, addOp, lastStatus_append, statusOf]
    · intro j hj
      have hfr := hframe j hj
      dsimp only at hfr
      simp only [addOp, lastStatus_append, statusOf] at hfr
      simp only [List.foldl_cons, List.foldl_nil, Option.elim] at hfr
      simp [incProcessed, incFailure, addOp, lastStatus_append, statusOf, Ne.symm hj, hfr]
  · have heq : runItemBody f id scrape et (addOp s (.logStart id)) =
        (Except.ok r, (runItemBody f id scrape et (addOp s (.logStart id))).2) := by
      rw [← hok]
    rw [heq] at hproc hframe hterm
    rw [heq]
    dsimp only
    dsimp only at hproc hframe hterm
    refine ⟨⟨_, rfl⟩, ?_, ?_, ?_⟩
    · simp only [addOp] at hproc
      simp [incProcessed, addOp, hproc]
    · simpa [incProcessed] using hterm
    · intro j hj
      have hfr := hframe j hj
      simp only [addOp, lastStatus_append, statusOf] at hfr
      simp only [List.foldl_cons, List.foldl_nil, Option.elim] at hfr
      simp [incProcessed, addOp, hfr]

/-- Batch-loop spec: with clean handlers every started item completes, the
loop processes exactly the items before the first `false` flag read, the
processed counter advances by that number, every started item ends in a
terminal status, and the status of any identifier is otherwise untouched. -/
theorem processBatchLoop_spec (faultsOf : String → DbFaults)
    (hf : ∀ id, cleanHandler (faultsOf id))
    (scrapeOf : String → ScrapeResult) (etOf : String → Nat) :
    ∀ (pending : List String) (flags : Nat → Bool) (s : MgrState),
      (∃ rs : List ItemResult,
         (processBatchLoop faultsOf scrapeOf etOf flags pending s).1 = Except.ok rs ∧
         rs.length = prefixTrue flags pending.length) ∧
      (processBatchLoop faultsOf scrapeOf etOf flags pending s).2.processedCount
        = s.processedCount + prefixTrue flags pending.length ∧
      (∀ j, lastStatus (processBatchLoop faultsOf scrapeOf etOf flags pending s).2.ops j
              = lastStatus s.ops j ∨
            lastStatus (processBatchLoop faultsOf scrapeOf etOf flags pending s).2.ops j
              = some "completed" ∨
            lastStatus (processBatchLoop faultsOf scrapeOf etOf flags pending s).2.ops j
              = some "failed") ∧
      (∀ id ∈ pending.take (prefixTrue flags pending.length),
         lastStatus (processBatchLoop faultsOf scrapeOf etOf flags pending s).2.ops id
             = some "completed" ∨
         lastStatus (processBatchLoop faultsOf scrapeOf etOf flags pending s).2.ops id
             = some "failed") := by
  intro pending
  induction pending with
  | nil =>
    intro flags s
    refine ⟨⟨[], rfl, rfl⟩, by simp [processBatchLoop, prefixTrue], ?_, ?_⟩
    · intro j; exact Or.inl rfl
    · intro id hid; simp at hid
  | cons a rest ih =>
    intro flags s
    by_cases hfl : flags 0 = true
    · -- the flag is up: item a runs, then the loop continues with shifted flags
      obtain ⟨⟨r, hok⟩, hproc, hterm, hframe⟩ :=
        processSingle_spec (faultsOf a) (hf a) a (scrapeOf a) (etOf a) s
      have heq : processSingleSteamId (faultsOf a) a (scrapeOf a) (etOf a) s =
          (Except.ok r, (processSingleSteamId (faultsOf a) a (scrapeOf a) (etOf a) s).2) := by
        rw [← hok]
      set s1 := (processSingleSteamId (faultsOf a) a (scrapeOf a) (etOf a) s).2 with hs1
      obtain ⟨⟨rs, hok2, hlen2⟩, hproc2, hstat2, hterm2⟩ :=
        ih (fun i => flags (i + 1)) s1
      have heq2 : processBatchLoop faultsOf scrapeOf etOf (fun i => flags (i + 1)) rest s1 =
          (Except.ok rs, (processBatchLoop faultsOf scrapeOf etOf (fun i => flags (i + 1)) rest s1).2) := by
        rw [← hok2]
      have hunfold : processBatchLoop faultsOf scrapeOf etOf flags (a :: rest) s =
          (Except.ok (r :: rs),
           (processBatchLoop faultsOf scrapeOf etOf (fun i => flags (i + 1)) rest s1).2) := by
        rw [processBatchLoop, if_pos hfl, heq]
        dsimp only
        rw [heq2]
      have hpref : prefixTrue flags (a :: rest).length
          = prefixTrue (fun i => flags (i + 1)) rest.length + 1 := by
        simp [prefixTrue, hfl]
      rw [hunfold]
      dsimp only
      refine ⟨⟨r :: rs, rfl, ?_⟩, ?_, ?_, ?_⟩
      · rw [hpref]
        simp [hlen2]
      · rw [hpref, hproc2, hproc]; omega
      · intro j
        rcases hstat2 j with hst | hst | hst
        · rw [hst]
          by_cases hja : j = a
          · subst hja
            rcases hterm with ht | ht
            · exact Or.inr (Or.inl ht)
            · exact Or.inr (Or.inr ht)
          · exact Or.inl (hframe j hja)
        · exact Or.inr (Or.inl hst)
        · exact Or.inr (Or.inr hst)
      · intro id hid
        rw [hpref] at hid
        rw [List.take_succ_cons] at hid
        rcases List.mem_cons.mp hid with rfl | hid
        · rcases hstat2 id with hst | hst | hst
          · rw [hst]; exact hterm
          · exact Or.inl hst
          · exact Or.inr hst
        · exact hterm2 id hid
    · -- the flag is down: the loop breaks before item a
      have hfl2 : flags 0 = false := by
        cases h : flags 0
        · rfl
        · exact absurd h hfl
      have hunfold : processBatchLoop faultsOf scrapeOf etOf flags (a :: rest) s =
          (Except.ok [], s) := by
        rw [processBatchLoop, if_neg]
        rw [hfl2]
        exact Bool.false_ne_true
      have hpref : prefixTrue flags (a :: rest).length = 0 := by
        simp [prefixTrue, hfl2]
      rw [hunfold, hpref]
      refine ⟨⟨[], rfl, rfl⟩, by simp, ?_, ?_⟩
      · intro j; exact Or.inl rfl
      · intro id hid; simp at hid

/-! ## C3 -/

/-- C3: when the extraction passes classify zero fields, the scrape result
has `success = false` (the internally thrown no-data error is caught), and
the per-item procedure persists exactly a failure upsert (`saveError`) plus
the `failed` status — never a success record. -/
theorem c3_zero_field_guard (d : Document) (h : countFields (extract d).stats = 0)
    (id : String) (et : Nat) (s : MgrState) :
    (scrapePlayerStats (FetchOutcome.ok d)).success = false ∧
    processSingleSteamId noFaults id (scrapePlayerStats (FetchOutcome.ok d)) et s =
      (Except.ok { success := false, steamId64 := id, error := some noDataMsg },
       { s with
         ops := s.ops ++
           [DbOp.logStart id, DbOp.setStatus id "processing",
            DbOp.saveError id noDataMsg, DbOp.setStatus id "failed",
            DbOp.logFailure id et noDataMsg]
         failureCount := s.failureCount + 1
         processedCount := s.processedCount + 1 }) := by
  have hs : scrapePlayerStats (FetchOutcome.ok d) =
      { success := false, error := some noDataMsg } := by
    simp [scrapePlayerStats, h]
  refine ⟨by rw [hs], ?_⟩
  rw [hs]
  simp [processSingleSteamId, runItemBody, dbTry, noFaults, addOp, incFailure, incProcessed]

/-- C3 witness: the empty document classifies zero fields. -/
theorem c3_zero_field_guard_witness :
    (scrapePlayerStats (FetchOutcome.ok { elems := [] })).success = false :=
  (c3_zero_field_guard { elems := [] } rfl "X" 0 {}).1

/-! ## C4 -/

/-- C4 counterexample: a persistence fault in the `logScrapeStart` call of
item B — a call inside the per-item procedure (its step 1) — propagates out
of `processSingleSteamId` because that call precedes the `try` block; the
batch aborts and processed is 1, not 3, so items after B never reach a
terminal status. -/
theorem c4_counterexample :
    (processBatch (fun id => if id = "B" then { logStart := some "db down" } else noFaults)
        (fun _ => failScrape) (fun _ => 0) (fun _ => true) ["A", "B", "C"] {}).1
      = Except.error "db down" ∧
    (processBatch (fun id => if id = "B" then { logStart := some "db down" } else noFaults)
        (fun _ => failScrape) (fun _ => 0) (fun _ => true) ["A", "B", "C"] {}).2.processedCount
      = 1 := by
  constructor <;> rfl

theorem prefixTrue_const_true (n : Nat) : prefixTrue (fun _ => true) n = n := by
  induction n with
  | zero => rfl
  | succ k ih => simp [prefixTrue, ih]

/-- C4 amended: (1) a failure reported by the scrape step (rendering
error, NoDataFound) is captured and converted into exactly a failure
upsert (`saveError`), the `failed` status, and a failure log update, with
the processed counter incremented; (2) any fault thrown inside the guarded
`try` body is caught and the handler performs the same conversion
(`saveError` with the thrown message, `failed` status, failure log),
again with the processed counter incremented; (3) by contrast a fault in
any of the three failure-handling calls inside the `catch` handler
propagates out of the per-item procedure — as does a fault in the
unguarded log-start call, per the counterexample; (4) at batch level,
with those four call sites fault-free, every item is processed (item 2 of
3 failing still yields processed = pending.length), the processed counter
advances by the batch length, and every item reaches a terminal status —
a single item's failure never aborts the batch. -/
theorem c4_amended_failure_isolation :
    (∀ (id : String) (scrape : ScrapeResult) (et : Nat) (s : MgrState),
        scrape.success = false →
        processSingleSteamId noFaults id scrape et s =
          (Except.ok { success := false, steamId64 := id, error := scrape.error },
           { s with
             ops := s.ops ++
               [DbOp.logStart id, DbOp.setStatus id "processing",
                DbOp.saveError id (scrape.error.getD ""), DbOp.setStatus id "failed",
                DbOp.logFailure id et (scrape.error.getD "")]
             failureCount := s.failureCount + 1
             processedCount := s.processedCount + 1 })) ∧
    (∀ (f : DbFaults) (id : String) (scrape : ScrapeResult) (et : Nat) (s : MgrState)
        (e : String) (s1 : MgrState),
        cleanHandler f →
        runItemBody f id scrape et (addOp s (DbOp.logStart id)) = (Except.error e, s1) →
        processSingleSteamId f id scrape et s =
          (Except.ok { success := false, steamId64 := id, error := some e },
           incProcessed (incFailure (addOp (addOp (addOp s1 (DbOp.saveError id e))
             (DbOp.setStatus id "failed")) (DbOp.logFailure id 0 e))))) ∧
    (∀ (id : String) (scrape : ScrapeResult) (et : Nat) (s : MgrState) (e0 e1 : String),
        processSingleSteamId { setProcessing := some e0, saveErrorC := some e1 }
            id scrape et s
          = (Except.error e1, incProcessed (addOp s (DbOp.logStart id))) ∧
        processSingleSteamId { setProcessing := some e0, setFailedC := some e1 }
            id scrape et s
          = (Except.error e1,
             incProcessed (addOp (addOp s (DbOp.logStart id)) (DbOp.saveError id e0))) ∧
        processSingleSteamId { setProcessing := some e0, logFailureC := some e1 }
            id scrape et s
          = (Except.error e1,
             incProcessed (addOp (addOp (addOp s (DbOp.logStart id))
               (DbOp.saveError id e0)) (DbOp.setStatus id "failed")))) ∧
    (∀ (faultsOf : String → DbFaults), (∀ id, cleanHandler (faultsOf id)) →
        ∀ (scrapeOf : String → ScrapeResult) (etOf : String → Nat)
          (pending : List String) (s : MgrState),
        ∃ br : BatchResult,
          (processBatch faultsOf scrapeOf etOf (fun _ => true) pending s).1
            = Except.ok br ∧
          br.processed = pending.length ∧
          (processBatch faultsOf scrapeOf etOf (fun _ => true) pending s).2.processedCount
            = s.processedCount + pending.length ∧
          ∀ id ∈ pending,
            lastStatus (processBatch faultsOf scrapeOf etOf (fun _ => true) pending s).2.ops id
                = some "completed" ∨
            lastStatus (processBatch faultsOf scrapeOf etOf (fun _ => true) pending s).2.ops id
                = some "failed") := by
  refine ⟨?_, ?_, ?_, ?_⟩
  · intro id scrape et s hfail
    obtain ⟨su, da, er, sc⟩ := scrape
    dsimp only at hfail
    subst hfail
    simp [processSingleSteamId, runItemBody, dbTry, noFaults, addOp, incFailure, incProcessed]
  · intro f id scrape et s e s1 hcl hbody
    obtain ⟨h0, hc1, hc2, hc3⟩ := hcl
    unfold processSingleSteamId
    rw [h0]
    dsimp only
    rw [hbody]
    dsimp only
    rw [runItemCatch_ok f hc1 hc2 hc3 id e s1]
  · intro id scrape et s e0 e1
    exact ⟨rfl, rfl, rfl⟩
  · intro faultsOf hf scrapeOf etOf pending s
    cases pending with
    | nil =>
      refine ⟨{ processed := 0, successful := 0, failed := 0, completed := true },
        rfl, rfl, by simp [processBatch], by simp⟩
    | cons a rest =>
      obtain ⟨⟨rs, hok, hlen⟩, hproc, hstat, hterm⟩ :=
        processBatchLoop_spec faultsOf hf scrapeOf etOf (a :: rest) (fun _ => true) s
      have heq : processBatchLoop faultsOf scrapeOf etOf (fun _ => true) (a :: rest) s =
          (Except.ok rs,
           (processBatchLoop faultsOf scrapeOf etOf (fun _ => true) (a :: rest) s).2) := by
        rw [← hok]
      have hunfold : processBatch faultsOf scrapeOf etOf (fun _ => true) (a :: rest) s =
          (Except.ok
            { processed := rs.length
              successful := (rs.filter (fun r => r.success)).length
              failed := (rs.filter (fun r => !r.success)).length
              completed := false },
           (processBatchLoop faultsOf scrapeOf etOf (fun _ => true) (a :: rest) s).2) := by
        rw [processBatch, if_neg (by simp), heq]
      rw [hunfold]
      refine ⟨_, rfl, ?_, ?_, ?_⟩
      · simpa [prefixTrue_const_true] using hlen
      · rw [hproc, prefixTrue_const_true]
      · intro id hid
        apply hterm
        rw [prefixTrue_const_true, List.take_length]
        exact hid

/-- C4 amended witness: a failing scrape is converted into the failure
upsert, the failed status, and the failure log, with processed = 1. -/
theorem c4_amended_witness :
    processSingleSteamId noFaults "X" failScrape 0 {} =
      (Except.ok { success := false, steamId64 := "X",
                   error := some "HTTP 404: Not Found" },
       { ops := [DbOp.logStart "X", DbOp.setStatus "X" "processing",
                 DbOp.saveError "X" "HTTP 404: Not Found", DbOp.setStatus "X" "failed",
                 DbOp.logFailure "X" 0 "HTTP 404: Not Found"]
         processedCount := 1
         successCount := 0
         failureCount := 1 }) := by
  have h := c4_amended_failure_isolation.1 "X" failScrape 0 {} rfl
  simpa using h

/-! ## C7 -/

/-- C7: cancellation is cooperative and safe.  The flag is read exactly
once before each item (by construction of the loop embedding), a batch with
work always reports `completed = false` when it stops, the number of
processed items is the length of the uninterrupted true-prefix of flag
reads, the run never throws, and — starting from a trace with no identifier
in `processing` — no identifier is left in `processing` afterwards. -/
theorem c7_cooperative_cancellation (scrapeOf : String → ScrapeResult) (etOf : String → Nat)
    (pending : List String) (flags : Nat → Bool) (s : MgrState)
    (h0 : ∀ id, lastStatus s.ops id ≠ some "processing") :
    (∃ br : BatchResult,
       (processBatch (fun _ => noFaults) scrapeOf etOf flags pending s).1 = Except.ok br ∧
       br.processed = prefixTrue flags pending.length ∧
       (pending ≠ [] → br.completed = false)) ∧
    (∀ id, lastStatus (processBatch (fun _ => noFaults) scrapeOf etOf flags pending s).2.ops id
        ≠ some "processing") := by
  cases pending with
  | nil =>
    refine ⟨⟨{ processed := 0, successful := 0, failed := 0, completed := true },
      rfl, rfl, fun hne => absurd rfl hne⟩, ?_⟩
    simpa [processBatch] using h0
  | cons a rest =>
    obtain ⟨⟨rs, hok, hlen⟩, hproc, hstat, hterm⟩ :=
      processBatchLoop_spec (fun _ => noFaults) (fun _ => noFaults_cleanHandler) scrapeOf etOf
        (a :: rest) flags s
    have heq : processBatchLoop (fun _ => noFaults) scrapeOf etOf flags (a :: rest) s =
        (Except.ok rs,
         (processBatchLoop (fun _ => noFaults) scrapeOf etOf flags (a :: rest) s).2) := by
      rw [← hok]
    have hunfold : processBatch (fun _ => noFaults) scrapeOf etOf flags (a :: rest) s =
        (Except.ok
          { processed := rs.length
            successful := (rs.filter (fun r => r.success)).length
            failed := (rs.filter (fun r => !r.success)).length
            completed := false },
         (processBatchLoop (fun _ => noFaults) scrapeOf etOf flags (a :: rest) s).2) := by
      rw [processBatch, if_neg (by simp), heq]
    rw [hunfold]
    refine ⟨⟨_, rfl, hlen, fun _ => rfl⟩, ?_⟩
    intro id
    rcases hstat id with hst | hst | hst
    · rw [hst]; exact h0 id
    · rw [hst]; simp
    · rw [hst]; simp

/-- C7 witness: the flag drops after the first item of a 3-item batch; item
A is processed and nothing is left in `processing`. -/
theorem c7_witness :
    lastStatus ((processBatch (fun _ => noFaults) (fun _ => failScrape) (fun _ => 0)
        (fun k => decide (k = 0)) ["A", "B", "C"] {}).2.ops) "A" ≠ some "processing" :=
  (c7_cooperative_cancellation (fun _ => failScrape) (fun _ => 0) ["A", "B", "C"]
      (fun k => decide (k = 0)) {} (fun id h => by simp [lastStatus] at h)).2 "A"
